import Mathlib

/-!
Shallow embedding of `repolab_create.py`, a generator that reads a
declarative YAML project description and renders a Dockerfile, a build
script, a run script and a dockerignore file.

Pure string-building functions of the Python source are translated to Lean
functions; the `main` procedure is modelled as a function from a parsed
configuration to the sequence of file writes it performs (or the failure it
terminates with).  `os.chmod`, `os.chdir` and the optional README→notebook
conversion step are external effects outside the write model.
-/

set_option maxRecDepth 40000

namespace Repolab

/-- `PROJECT_DIR` from the source. -/
def PROJECT_DIR : String := "/project"

/-- `PROJECT_FILE` from the source. -/
def PROJECT_FILE : String := "repolab.yaml"

/-- `DOCKER_FILE` from the source. -/
def DOCKER_FILE : String := "repolab.dockerfile"

/-- `BUILD_FILE` from the source. -/
def BUILD_FILE : String := "repolab_build.sh"

/-- `RUN_FILE` from the source. -/
def RUN_FILE : String := "repolab_run.sh"

/-- `SUPPORTED_SYSTEMS` from the source. -/
def SUPPORTED_SYSTEMS : List String := ["ubuntu", "centos"]

/-- `SUPPORTED_VERSIONS` from the source: a dict from key to the allowed
value list, modelled as a lookup function (unused keys map to `[]`). -/
def SUPPORTED_VERSIONS : String → List String := fun k =>
  if k = "ubuntu" then ["16.04", "18.04"]
  else if k = "centos" then ["7"]
  else if k = "cuda" then ["8.0", "9.0", "9.1", "9.2", "10.0"]
  else if k = "opengl" then ["runtime", "devel"]
  else []

/-- A scalar YAML value as it matters to the program: the program only ever
applies Python `str()` to the values of `base.version`, `base.cuda` and
`base.opengl`.  `vnull` is YAML `null` (Python `None`, whose `str()` is
`"None"`); `vint` covers numeric scalars. -/
inductive YVal where
  | vstr (s : String)
  | vnull
  | vint (n : Int)
deriving DecidableEq, Repr

/-- Python `str()` on the scalar values above. -/
def pyStr : YVal → String
  | .vstr s => s
  | .vnull => "None"
  | .vint n => toString n

/-- Python `str.lower()` (character-wise lower-casing; the same function as
`String.toLower`, written as a list map so that it evaluates). -/
def pyLower (s : String) : String := ⟨s.data.map Char.toLower⟩

/-- Python truthiness of a `str`-or-`None` variable (`None` and the empty
string are falsy). -/
def pyTruthy : Option String → Bool
  | none => false
  | some s => !(s == "")

/-- Python `repr` of a list of strings, as `print`ed by the diagnostics,
e.g. `['ubuntu', 'centos']`. -/
def pyListRepr (l : List String) : String :=
  "[" ++ String.intercalate ", " (l.map fun s => "\x27" ++ s ++ "\x27") ++ "]"

/-- One entry of the optional `source-packages` sequence: a mapping with
required `repo` and `name` and optional `depends` (a sequence of package
names). -/
structure SourcePkg where
  repo : String
  name : String
  depends : Option (List String) := none
deriving DecidableEq, Repr

/-- The `base` mapping of the configuration.  `system` is read with
`.lower()` so it is a string; the other three are scalars that the program
passes through `str()`.  `none` models a key that is absent from the
mapping. -/
structure BaseSpec where
  system : Option String := none
  version : Option YVal := none
  cuda : Option YVal := none
  opengl : Option YVal := none
deriving DecidableEq, Repr

/-- The parsed configuration file (`yaml_file` in the source).  `none`
models an absent key. -/
structure Config where
  name : Option String := none
  base : Option BaseSpec := none
  aptPackages : Option (List String) := none
  sourcePackages : Option (List SourcePkg) := none
  custom : Option (List String) := none
deriving DecidableEq, Repr

/-- The failures the program can terminate with before or during `main`
(each is reported and the process exits with status 1).
`missingFileKey`/`missingBaseKey` are the caught `KeyError`s of
`get_base_image` (the printed text also echoes the file name resp. the
`base` mapping); `unsupported` carries the exact printed diagnostic;
`uncaughtKeyError` is an uncaught Python `KeyError` (exit status 1 with a
traceback). -/
inductive Err where
  | missingFileKey (key : String)
  | missingBaseKey (key : String)
  | unsupported (msg : String)
  | uncaughtKeyError (key : String)
deriving DecidableEq, Repr

/-- `get_base_image` from the source: validates the `base` section against
the whitelists and composes the base-image reference. -/
def get_base_image (yaml_file : Config) : Except Err String :=
  match yaml_file.base with
  | none => .error (.missingFileKey "base")
  | some base =>
    match base.system with
    | none => .error (.missingBaseKey "system")
    | some sys =>
      match base.version with
      | none => .error (.missingBaseKey "version")
      | some ver =>
        let system := pyLower sys
        let version := pyStr ver
        if system ∉ SUPPORTED_SYSTEMS then
          .error (.unsupported ("System " ++ system ++
            " is not supported. Valid options are: " ++
            pyListRepr SUPPORTED_SYSTEMS))
        else if version ∉ SUPPORTED_VERSIONS system then
          .error (.unsupported ("Version " ++ version ++
            " not supported in " ++ system ++
            " system. Valid options are: " ++
            pyListRepr (SUPPORTED_VERSIONS system)))
        else
          match
            (match base.cuda with
             | none => Except.ok (none : Option String)
             | some c =>
               let cuda_version := pyStr c
               if cuda_version ∉ SUPPORTED_VERSIONS "cuda" then
                 Except.error (Err.unsupported ("CUDA version " ++
                   cuda_version ++ " not supported. Valid options are: " ++
                   pyListRepr (SUPPORTED_VERSIONS "cuda")))
               else Except.ok (some cuda_version)) with
          | .error e => .error e
          | .ok cuda_version =>
            match
              (match base.opengl with
               | none => Except.ok (none : Option String)
               | some o =>
                 let opengl_option := pyStr o
                 if opengl_option ∉ SUPPORTED_VERSIONS "opengl" then
                   Except.error (Err.unsupported ("OpenGL option " ++
                     opengl_option ++
                     " not supported. Valid options are: " ++
                     pyListRepr (SUPPORTED_VERSIONS "opengl")))
                 else Except.ok (some opengl_option)) with
            | .error e => .error e
            | .ok opengl_option =>
              if pyTruthy cuda_version && pyTruthy opengl_option then
                .ok ("nvidia/cudagl:" ++ cuda_version.getD "" ++ "-devel-" ++
                  system ++ version)
              else if pyTruthy cuda_version then
                .ok ("nvidia/cuda:" ++ cuda_version.getD "" ++
                  "-cudnn7-devel-" ++ system ++ version)
              else if pyTruthy opengl_option then
                .ok ("nvidia/opengl:1.0-glvnd-devel-" ++ system ++ version)
              else
                .ok (system ++ ":" ++ version)

/-- `DOCKER_JUPYTERLAB` from the source (the fixed JupyterLab setup block;
tabs and the trailing newline reproduced exactly). -/
def DOCKER_JUPYTERLAB : String :=
  "\nENV DEBIAN_FRONTEND noninteractive\nENV LANG C.UTF-8\nENV LC_ALL C.UTF-8\n\nRUN apt-get update && apt-get -yq dist-upgrade \\\n && apt-get install -yq --no-install-recommends \\\n\tlocales python-pip cmake \\\n\tpython3-pip python3-setuptools git build-essential \\\n && apt-get clean \\\n && rm -rf /var/lib/apt/lists/*\n\nRUN pip3 install jupyterlab bash_kernel \\\n && python3 -m bash_kernel.install\n\nENV SHELL=/bin/bash \\\n\tNB_USER=jovyan \\\n\tNB_UID=1000 \\\n\tLANG=en_US.UTF-8 \\\n\tLANGUAGE=en_US.UTF-8\n\nENV HOME=/home/${NB_USER}\n\nRUN adduser --disabled-password \\\n\t--gecos \"Default user\" \\\n\t--uid ${NB_UID} \\\n\t${NB_USER}\n\nEXPOSE 8888\nWORKDIR ${HOME}\n\nCMD [\"jupyter\", \"lab\", \"--no-browser\", \"--ip=0.0.0.0\", \"--NotebookApp.token=\x27\x27\"]\n"

/-- `BUILD_SCRIPT % (dockerfile, tag)` from the source. -/
def BUILD_SCRIPT (dockerfile tag : String) : String :=
  "#!/bin/sh\ndocker build -f " ++ dockerfile ++ " -t " ++ tag ++ " ."

/-- The fixed part of `RUN_SCRIPT` before its `%s`. -/
def RUN_SCRIPT_PRE : String := "#!/bin/sh\ndocker run --rm -p 8888:8888 "

/-- `RUN_SCRIPT % image` from the source (the short, non-GPU run script). -/
def RUN_SCRIPT (image : String) : String := RUN_SCRIPT_PRE ++ image

/-- The fixed part of `NVIDIA_RUN_SCRIPT` before its `%s`. -/
def NVIDIA_RUN_SCRIPT_PRE : String :=
  "#!/bin/sh\nXAUTH=/tmp/.docker.xauth\nif [ ! -f $XAUTH ]\nthen\n    xauth_list=$(xauth nlist :0 | sed -e \x27s/^..../ffff/\x27)\n    if [ ! -z \"$xauth_list\" ]\n    then\n        echo $xauth_list | xauth -f $XAUTH nmerge -\n    else\n        touch $XAUTH\n    fi\n    chmod a+r $XAUTH\nfi\ndocker run --rm \\\n    --env=\"DISPLAY\" \\\n    --env=\"QT_X11_NO_MITSHM=1\" \\\n    --volume=\"/tmp/.X11-unix:/tmp/.X11-unix:rw\" \\\n    --env=\"XAUTHORITY=$XAUTH\" \\\n    --volume=\"$XAUTH:$XAUTH\" \\\n    --runtime=nvidia \\\n    -p 8888:8888 "

/-- `NVIDIA_RUN_SCRIPT % image` from the source (the extended GPU/X11 run
script). -/
def NVIDIA_RUN_SCRIPT (image : String) : String := NVIDIA_RUN_SCRIPT_PRE ++ image

/-- `is_nvidia` from the source: `base_image[:6] == "nvidia"`. -/
def is_nvidia (base_image : String) : Bool := base_image.take 6 == "nvidia"

/-- The fixed part of `DOCKER_APT` before its `%s`. -/
def DOCKER_APT_PRE : String :=
  "\nRUN apt-get update \\\n && apt-get install -yq --no-install-recommends \\\n"

/-- The fixed part of `DOCKER_APT` after its `%s`. -/
def DOCKER_APT_POST : String :=
  " && apt-get clean \\\n && rm -rf /var/lib/apt/lists/*\n"

/-- `DOCKER_APT % s` from the source. -/
def DOCKER_APT (s : String) : String := DOCKER_APT_PRE ++ s ++ DOCKER_APT_POST

/-- `apt_packages` from the source: empty string when `apt-packages` is
absent, otherwise `DOCKER_APT` filled with one continuation line per
package (the loop `pstr += '    ' + p + ' \\\n'` is the fold). -/
def apt_packages (yaml_file : Config) : String :=
  match yaml_file.aptPackages with
  | some ps => DOCKER_APT (ps.foldl (fun pstr p => pstr ++ "    " ++ p ++ " \\\n") "")
  | none => ""

/-- `DOCKER_CMAKE % (repo, name, name, name)` from the source. -/
def DOCKER_CMAKE (repo name : String) : String :=
  "\nRUN git clone " ++ repo ++ " /" ++ name ++ " \\\n && cd /" ++ name ++
  " \\\n && mkdir build \\\n && cd build \\\n && cmake .. \\\n && make -j2 install \\\n && rm -fr /" ++
  name ++ "\n"

/-- The body of the `source_packages` loop for one entry `p`: the optional
dependency install block (emitted only when `depends` is present and
truthy, i.e. a non-empty list) followed by the fetch-build-install block. -/
def source_entry (sstr : String) (p : SourcePkg) : String :=
  (match p.depends with
   | some ds =>
     if ds.isEmpty then sstr
     else sstr ++ DOCKER_APT (ds.foldl (fun dstr d => dstr ++ "    " ++ d ++ " \\\n") "")
   | none => sstr) ++ DOCKER_CMAKE p.repo p.name

/-- `source_packages` from the source: empty string when `source-packages`
is absent, otherwise the loop `sstr += …` over the entries, modelled as a
fold of `source_entry`. -/
def source_packages (yaml_file : Config) : String :=
  match yaml_file.sourcePackages with
  | some ps => ps.foldl source_entry ""
  | none => ""

/-- `DOCKER_COPY_REPO` from the source. -/
def DOCKER_COPY_REPO : String :=
  "\nCOPY . ${HOME}\nRUN chown -R ${NB_UID} ${HOME}\nUSER ${NB_USER}\n"

/-- `DOCKER_BUILD_REPO` from the source (the default build fragment). -/
def DOCKER_BUILD_REPO : String :=
  "\nRUN mkdir build \\\n && cd build \\\n && cmake .. \\\n && make -j2\n"

/-- `DOCKER_IGNORE_FILE` from the source. -/
def DOCKER_IGNORE_FILE : String := ".dockerignore"

/-- `DOCKER_IGNORE_CONTENTS` from the source: the `%`-filled fixed ignore
list. -/
def DOCKER_IGNORE_CONTENTS : String :=
  "README.md\n" ++ DOCKER_IGNORE_FILE ++ "\n" ++ PROJECT_FILE ++ "\n" ++
  DOCKER_FILE ++ "\n" ++ BUILD_FILE ++ "\n" ++ RUN_FILE ++ "\n"

/-- `custom_commands` from the source: one `RUN `-prefixed line per entry
of `custom`, in order (`main` only calls it when the key is present). -/
def custom_commands (yaml_file : Config) : String :=
  match yaml_file.custom with
  | some cs => cs.foldl (fun s c => s ++ "RUN " ++ c ++ "\n") ""
  | none => ""

/-- The writes `main` performs into the Dockerfile, as the list of fragments
passed to `dockerfile.write`, in order. -/
def docker_fragments (yaml_file : Config) (base_image : String) : List String :=
  [ "FROM " ++ base_image ++ "\n",
    DOCKER_JUPYTERLAB,
    apt_packages yaml_file,
    source_packages yaml_file,
    DOCKER_COPY_REPO,
    if yaml_file.custom.isSome then custom_commands yaml_file else DOCKER_BUILD_REPO ]

/-- The full text of the generated Dockerfile: the concatenation of the
written fragments. -/
def dockerfile_text (yaml_file : Config) (base_image : String) : String :=
  String.join (docker_fragments yaml_file base_image)

/-- Outcome of a run of `main` on a parsed configuration: either success
with the list of `(filename, contents)` writes in order, or termination
with exit status `exitCode` after the diagnostic `diag`, with the file
writes completed before termination.  (When `name` is missing, the
`KeyError` is raised while formatting the build script, after the
Dockerfile write completed; the build-script file has by then been opened
and truncated but holds no content, which the write list does not record.) -/
inductive ProgResult where
  | success (writes : List (String × String))
  | failure (exitCode : Nat) (diag : Err) (writes : List (String × String))
deriving DecidableEq, Repr

/-- The writes performed by a run, successful or not. -/
def ProgResult.writes : ProgResult → List (String × String)
  | .success ws => ws
  | .failure _ _ ws => ws

/-- `main` from the source, modelled on an already-parsed configuration:
resolve the base image (terminating on any validation failure before any
write), then write the Dockerfile, the build script (reading the required
`name` key — an uncaught `KeyError` if absent), the run script (GPU-aware
variant selection) and the ignore file. -/
def main (yaml_file : Config) : ProgResult :=
  match get_base_image yaml_file with
  | .error e => .failure 1 e []
  | .ok base_image =>
    let dockerWrite := (DOCKER_FILE, dockerfile_text yaml_file base_image)
    match yaml_file.name with
    | none => .failure 1 (.uncaughtKeyError "name") [dockerWrite]
    | some name =>
      .success
        [ dockerWrite,
          (BUILD_FILE, BUILD_SCRIPT DOCKER_FILE name),
          (RUN_FILE, if is_nvidia base_image then NVIDIA_RUN_SCRIPT name
                     else RUN_SCRIPT name),
          (DOCKER_IGNORE_FILE, DOCKER_IGNORE_CONTENTS) ]

/-! ### Helper lemmas about the string-building combinators -/

/-- The character of `s` at index `i`, if any. -/
def charAt (s : String) (i : Nat) : Option Char := s.data[i]?

theorem charAt_append_left {a : String} (b : String) {i : Nat}
    (h : i < a.data.length) : charAt (a ++ b) i = charAt a i := by
  simp only [charAt, String.data_append]
  exact List.getElem?_append_left h

theorem ne_of_charAt_ne {a b : String} (i : Nat)
    (h : charAt a i ≠ charAt b i) : a ≠ b :=
  fun he => h (by rw [he])

theorem lt_length_of_charAt {s : String} {i : Nat} {c : Char}
    (h : charAt s i = some c) : i < s.data.length := by
  simp only [charAt] at h
  exact (List.getElem?_eq_some.mp h).1

theorem join_cons (x : String) (l : List String) :
    String.join (x :: l) = x ++ String.join l := by
  apply String.ext
  simp [String.data_append]

theorem foldl_append_eq_join (g : α → String) :
    ∀ (l : List α) (init : String),
      l.foldl (fun s a => s ++ g a) init = init ++ String.join (l.map g)
  | [], init => by simp [String.join]
  | a :: l, init => by
    rw [List.foldl_cons, foldl_append_eq_join g l (init ++ g a), List.map_cons,
      join_cons, String.append_assoc]

theorem custom_commands_eq (yaml_file : Config) (cs : List String)
    (h : yaml_file.custom = some cs) :
    custom_commands yaml_file = String.join (cs.map fun c => "RUN " ++ c ++ "\n") := by
  have hf : (fun (s c : String) => s ++ "RUN " ++ c ++ "\n") =
      fun s c => s ++ ("RUN " ++ c ++ "\n") := by
    funext s c
    rw [String.append_assoc s, String.append_assoc s]
  simp only [custom_commands, h, hf]
  rw [foldl_append_eq_join, String.empty_append]

theorem pkg_lines_fold_eq (ps : List String) :
    ps.foldl (fun pstr p => pstr ++ "    " ++ p ++ " \\\n") "" =
      String.join (ps.map fun p => "    " ++ p ++ " \\\n") := by
  have hf : (fun (pstr p : String) => pstr ++ "    " ++ p ++ " \\\n") =
      fun pstr p => pstr ++ ("    " ++ p ++ " \\\n") := by
    funext pstr p
    rw [String.append_assoc pstr, String.append_assoc pstr]
  rw [hf, foldl_append_eq_join, String.empty_append]

theorem apt_packages_eq (yaml_file : Config) (ps : List String)
    (h : yaml_file.aptPackages = some ps) :
    apt_packages yaml_file =
      DOCKER_APT (String.join (ps.map fun p => "    " ++ p ++ " \\\n")) := by
  simp only [apt_packages, h]
  rw [pkg_lines_fold_eq]

/-- The dependency install block `source_packages` emits for one entry:
empty unless `depends` is present and non-empty. -/
def depends_fragment (p : SourcePkg) : String :=
  match p.depends with
  | some ds =>
    if ds.isEmpty then ""
    else DOCKER_APT (String.join (ds.map fun d => "    " ++ d ++ " \\\n"))
  | none => ""

/-- Everything `source_packages` emits for one entry: the optional
dependency install block followed by the fetch-build-install block. -/
def entry_fragment (p : SourcePkg) : String :=
  depends_fragment p ++ DOCKER_CMAKE p.repo p.name

theorem source_entry_eq (sstr : String) (p : SourcePkg) :
    source_entry sstr p = sstr ++ entry_fragment p := by
  rcases p with ⟨repo, name, depends⟩
  cases depends with
  | none => simp [source_entry, entry_fragment, depends_fragment]
  | some ds =>
    cases ds with
    | nil => simp [source_entry, entry_fragment, depends_fragment]
    | cons d ds =>
      simp only [source_entry, entry_fragment, depends_fragment,
        List.isEmpty_cons, Bool.false_eq_true, if_false]
      rw [pkg_lines_fold_eq, String.append_assoc]

theorem source_packages_eq (yaml_file : Config) (ps : List SourcePkg)
    (h : yaml_file.sourcePackages = some ps) :
    source_packages yaml_file = String.join (ps.map entry_fragment) := by
  have hf : source_entry = fun sstr p => sstr ++ entry_fragment p :=
    funext fun s => funext fun p => source_entry_eq s p
  simp only [source_packages, h, hf]
  rw [foldl_append_eq_join, String.empty_append]

theorem pyTruthy_none : pyTruthy none = false := rfl

theorem mem_cuda_whitelist_truthy :
    ∀ s ∈ SUPPORTED_VERSIONS "cuda", pyTruthy (some s) = true := by decide

theorem mem_opengl_whitelist_truthy :
    ∀ s ∈ SUPPORTED_VERSIONS "opengl", pyTruthy (some s) = true := by decide

theorem charAt_apt_five (s : String) : charAt (DOCKER_APT s) 5 = some 'a' := by
  rw [DOCKER_APT, String.append_assoc]
  rw [charAt_append_left _ (by decide : 5 < DOCKER_APT_PRE.data.length)]
  decide

theorem charAt_cmake_five (repo name : String) :
    charAt (DOCKER_CMAKE repo name) 5 = some 'g' := by
  rw [DOCKER_CMAKE]
  simp only [String.append_assoc]
  rw [charAt_append_left _ (by decide : 5 < ("\nRUN git clone ").data.length)]
  decide

theorem charAt_from_line_zero (img : String) :
    charAt ("FROM " ++ img ++ "\n") 0 = some 'F' := by
  simp only [String.append_assoc]
  rw [charAt_append_left _ (by decide : 0 < ("FROM ").data.length)]
  decide

theorem charAt_entry_fragment_five (p : SourcePkg) :
    charAt (entry_fragment p) 5 = some 'a' ∨
      charAt (entry_fragment p) 5 = some 'g' := by
  rcases p with ⟨repo, name, depends⟩
  cases depends with
  | none =>
    right
    simp only [entry_fragment, depends_fragment, String.empty_append]
    exact charAt_cmake_five repo name
  | some ds =>
    cases ds with
    | nil =>
      right
      simp only [entry_fragment, depends_fragment, List.isEmpty_nil, if_true,
        String.empty_append]
      exact charAt_cmake_five repo name
    | cons d ds =>
      left
      simp only [entry_fragment, depends_fragment, List.isEmpty_cons,
        Bool.false_eq_true, if_false, DOCKER_APT]
      simp only [String.append_assoc]
      rw [charAt_append_left _ (by decide : 5 < DOCKER_APT_PRE.data.length)]
      decide

theorem apt_packages_ne_build (cfg : Config) :
    apt_packages cfg ≠ DOCKER_BUILD_REPO := by
  cases h : cfg.aptPackages with
  | none => simp only [apt_packages, h]; decide
  | some ps =>
    simp only [apt_packages, h]
    exact ne_of_charAt_ne 5 (by rw [charAt_apt_five]; decide)

theorem source_packages_ne_build (cfg : Config) :
    source_packages cfg ≠ DOCKER_BUILD_REPO := by
  cases h : cfg.sourcePackages with
  | none => simp only [source_packages, h]; decide
  | some ps =>
    rw [source_packages_eq cfg ps h]
    cases ps with
    | nil => decide
    | cons p ps =>
      rw [List.map_cons, join_cons]
      rcases charAt_entry_fragment_five p with hc | hc
      · refine ne_of_charAt_ne 5 ?_
        rw [charAt_append_left _ (lt_length_of_charAt hc), hc]
        decide
      · refine ne_of_charAt_ne 5 ?_
        rw [charAt_append_left _ (lt_length_of_charAt hc), hc]
        decide

theorem custom_commands_ne_build (cfg : Config) (cs : List String)
    (h : cfg.custom = some cs) : custom_commands cfg ≠ DOCKER_BUILD_REPO := by
  rw [custom_commands_eq cfg cs h]
  cases cs with
  | nil => decide
  | cons c cs =>
    rw [List.map_cons, join_cons]
    refine ne_of_charAt_ne 0 ?_
    simp only [String.append_assoc]
    rw [charAt_append_left _ (by decide : 0 < ("RUN ").data.length)]
    decide

theorem from_line_ne_build (img : String) :
    "FROM " ++ img ++ "\n" ≠ DOCKER_BUILD_REPO :=
  ne_of_charAt_ne 0 (by rw [charAt_from_line_zero]; decide)

theorem build_repo_not_emitted (cfg : Config) (img : String) (cs : List String)
    (h : cfg.custom = some cs) :
    DOCKER_BUILD_REPO ∉ docker_fragments cfg img := by
  simp only [docker_fragments, h, Option.isSome_some, if_true]
  intro hmem
  simp only [List.mem_cons, List.not_mem_nil, or_false] at hmem
  rcases hmem with h1 | h1 | h1 | h1 | h1 | h1
  · exact from_line_ne_build img h1.symm
  · exact absurd h1.symm (by decide)
  · exact apt_packages_ne_build cfg h1.symm
  · exact source_packages_ne_build cfg h1.symm
  · exact absurd h1.symm (by decide)
  · exact custom_commands_ne_build cfg cs h h1.symm

theorem dockerfile_text_eq (cfg : Config) (img : String) :
    dockerfile_text cfg img =
      "FROM " ++ img ++ "\n" ++ DOCKER_JUPYTERLAB ++ apt_packages cfg ++
      source_packages cfg ++ DOCKER_COPY_REPO ++
      (if cfg.custom.isSome then custom_commands cfg else DOCKER_BUILD_REPO) := by
  rw [dockerfile_text, docker_fragments]
  simp only [join_cons, String.append_assoc, String.join, List.foldl,
    String.empty_append, String.append_empty]

/-! ### Evaluation lemmas for `get_base_image` -/

theorem get_base_image_cudagl (cfg : Config) (b : BaseSpec) (sys : String)
    (ver c o : YVal) (hb : cfg.base = some b) (hs : b.system = some sys)
    (hv : b.version = some ver) (hc : b.cuda = some c) (ho : b.opengl = some o)
    (h1 : pyLower sys ∈ SUPPORTED_SYSTEMS)
    (h2 : pyStr ver ∈ SUPPORTED_VERSIONS (pyLower sys))
    (h3 : pyStr c ∈ SUPPORTED_VERSIONS "cuda")
    (h4 : pyStr o ∈ SUPPORTED_VERSIONS "opengl") :
    get_base_image cfg =
      .ok ("nvidia/cudagl:" ++ pyStr c ++ "-devel-" ++ pyLower sys ++ pyStr ver) := by
  simp [get_base_image, hb, hs, hv, hc, ho, h1, h2, h3, h4,
    mem_cuda_whitelist_truthy _ h3, mem_opengl_whitelist_truthy _ h4]

theorem get_base_image_cuda_only (cfg : Config) (b : BaseSpec) (sys : String)
    (ver c : YVal) (hb : cfg.base = some b) (hs : b.system = some sys)
    (hv : b.version = some ver) (hc : b.cuda = some c) (ho : b.opengl = none)
    (h1 : pyLower sys ∈ SUPPORTED_SYSTEMS)
    (h2 : pyStr ver ∈ SUPPORTED_VERSIONS (pyLower sys))
    (h3 : pyStr c ∈ SUPPORTED_VERSIONS "cuda") :
    get_base_image cfg =
      .ok ("nvidia/cuda:" ++ pyStr c ++ "-cudnn7-devel-" ++ pyLower sys ++ pyStr ver) := by
  simp [get_base_image, hb, hs, hv, hc, ho, h1, h2, h3, pyTruthy_none,
    mem_cuda_whitelist_truthy _ h3]

theorem get_base_image_opengl_only (cfg : Config) (b : BaseSpec) (sys : String)
    (ver o : YVal) (hb : cfg.base = some b) (hs : b.system = some sys)
    (hv : b.version = some ver) (hc : b.cuda = none) (ho : b.opengl = some o)
    (h1 : pyLower sys ∈ SUPPORTED_SYSTEMS)
    (h2 : pyStr ver ∈ SUPPORTED_VERSIONS (pyLower sys))
    (h4 : pyStr o ∈ SUPPORTED_VERSIONS "opengl") :
    get_base_image cfg =
      .ok ("nvidia/opengl:1.0-glvnd-devel-" ++ pyLower sys ++ pyStr ver) := by
  simp [get_base_image, hb, hs, hv, hc, ho, h1, h2, h4, pyTruthy_none,
    mem_opengl_whitelist_truthy _ h4]

theorem get_base_image_plain (cfg : Config) (b : BaseSpec) (sys : String)
    (ver : YVal) (hb : cfg.base = some b) (hs : b.system = some sys)
    (hv : b.version = some ver) (hc : b.cuda = none) (ho : b.opengl = none)
    (h1 : pyLower sys ∈ SUPPORTED_SYSTEMS)
    (h2 : pyStr ver ∈ SUPPORTED_VERSIONS (pyLower sys)) :
    get_base_image cfg = .ok (pyLower sys ++ ":" ++ pyStr ver) := by
  simp [get_base_image, hb, hs, hv, hc, ho, h1, h2, pyTruthy_none]

theorem get_base_image_ok_system_mem (cfg : Config) (b : BaseSpec) (sys : String)
    (ver : YVal) (img : String) (hb : cfg.base = some b)
    (hs : b.system = some sys) (hv : b.version = some ver)
    (hok : get_base_image cfg = .ok img) :
    pyLower sys ∈ SUPPORTED_SYSTEMS ∧
      pyStr ver ∈ SUPPORTED_VERSIONS (pyLower sys) := by
  constructor
  · by_contra h1
    simp [get_base_image, hb, hs, hv, h1] at hok
  · by_contra h2
    by_cases h1 : pyLower sys ∈ SUPPORTED_SYSTEMS
    · simp [get_base_image, hb, hs, hv, h1, h2] at hok
    · simp [get_base_image, hb, hs, hv, h1] at hok

theorem get_base_image_ok_cuda_mem (cfg : Config) (b : BaseSpec) (sys : String)
    (ver c : YVal) (img : String) (hb : cfg.base = some b)
    (hs : b.system = some sys) (hv : b.version = some ver)
    (hc : b.cuda = some c) (hok : get_base_image cfg = .ok img) :
    pyStr c ∈ SUPPORTED_VERSIONS "cuda" := by
  obtain ⟨h1, h2⟩ := get_base_image_ok_system_mem cfg b sys ver img hb hs hv hok
  by_contra h3
  simp [get_base_image, hb, hs, hv, h1, h2, hc, h3] at hok

theorem get_base_image_ok_opengl_mem (cfg : Config) (b : BaseSpec) (sys : String)
    (ver o : YVal) (img : String) (hb : cfg.base = some b)
    (hs : b.system = some sys) (hv : b.version = some ver)
    (ho : b.opengl = some o) (hok : get_base_image cfg = .ok img) :
    pyStr o ∈ SUPPORTED_VERSIONS "opengl" := by
  obtain ⟨h1, h2⟩ := get_base_image_ok_system_mem cfg b sys ver img hb hs hv hok
  by_contra h4
  cases hc : b.cuda with
  | none => simp [get_base_image, hb, hs, hv, h1, h2, hc, ho, h4] at hok
  | some c =>
    have h3 := get_base_image_ok_cuda_mem cfg b sys ver c img hb hs hv hc hok
    simp [get_base_image, hb, hs, hv, h1, h2, hc, h3, ho, h4] at hok

/-- C1: for every validated configuration, the base-image reference returned
by `get_base_image` follows the four-way priority rule — CUDA and OpenGL
both present gives `nvidia/cudagl:<cuda>-devel-<system><version>`, CUDA only
gives `nvidia/cuda:<cuda>-cudnn7-devel-<system><version>`, OpenGL only gives
`nvidia/opengl:1.0-glvnd-devel-<system><version>`, neither gives
`<system>:<version>` — with the system name lower-cased in every case. -/
theorem base_image_priority_rule (cfg : Config) (b : BaseSpec) (sys : String)
    (ver : YVal) (img : String) (hb : cfg.base = some b)
    (hs : b.system = some sys) (hv : b.version = some ver)
    (hok : get_base_image cfg = .ok img) :
    (∀ c o, b.cuda = some c → b.opengl = some o →
      img = "nvidia/cudagl:" ++ pyStr c ++ "-devel-" ++ pyLower sys ++ pyStr ver) ∧
    (∀ c, b.cuda = some c → b.opengl = none →
      img = "nvidia/cuda:" ++ pyStr c ++ "-cudnn7-devel-" ++ pyLower sys ++ pyStr ver) ∧
    (∀ o, b.cuda = none → b.opengl = some o →
      img = "nvidia/opengl:1.0-glvnd-devel-" ++ pyLower sys ++ pyStr ver) ∧
    (b.cuda = none → b.opengl = none →
      img = pyLower sys ++ ":" ++ pyStr ver) := by
  obtain ⟨h1, h2⟩ := get_base_image_ok_system_mem cfg b sys ver img hb hs hv hok
  refine ⟨?_, ?_, ?_, ?_⟩
  · intro c o hc ho
    have h3 := get_base_image_ok_cuda_mem cfg b sys ver c img hb hs hv hc hok
    have h4 := get_base_image_ok_opengl_mem cfg b sys ver o img hb hs hv ho hok
    have he := get_base_image_cudagl cfg b sys ver c o hb hs hv hc ho h1 h2 h3 h4
    rw [he] at hok
    exact (Except.ok.inj hok).symm
  · intro c hc ho
    have h3 := get_base_image_ok_cuda_mem cfg b sys ver c img hb hs hv hc hok
    have he := get_base_image_cuda_only cfg b sys ver c hb hs hv hc ho h1 h2 h3
    rw [he] at hok
    exact (Except.ok.inj hok).symm
  · intro o hc ho
    have h4 := get_base_image_ok_opengl_mem cfg b sys ver o img hb hs hv ho hok
    have he := get_base_image_opengl_only cfg b sys ver o hb hs hv hc ho h1 h2 h4
    rw [he] at hok
    exact (Except.ok.inj hok).symm
  · intro hc ho
    have he := get_base_image_plain cfg b sys ver hb hs hv hc ho h1 h2
    rw [he] at hok
    exact (Except.ok.inj hok).symm

deriving instance DecidableEq for Except

/-- The `base` section used by the C1 witness: `system: Ubuntu`,
`version: "18.04"`, `cuda: "10.0"`, `opengl: devel`. -/
def baseC1 : BaseSpec :=
  { system := some "Ubuntu", version := some (.vstr "18.04"),
    cuda := some (.vstr "10.0"), opengl := some (.vstr "devel") }

/-- The configuration used by the C1 witness. -/
def cfgC1 : Config := { name := some "demo", base := some baseC1 }

theorem base_image_priority_rule_witness :
    get_base_image cfgC1 = .ok "nvidia/cudagl:10.0-devel-ubuntu18.04" ∧
    "nvidia/cudagl:10.0-devel-ubuntu18.04" =
      "nvidia/cudagl:" ++ pyStr (.vstr "10.0") ++ "-devel-" ++
        pyLower "Ubuntu" ++ pyStr (.vstr "18.04") :=
  ⟨by decide,
   (base_image_priority_rule cfgC1 baseC1 "Ubuntu" (.vstr "18.04")
      "nvidia/cudagl:10.0-devel-ubuntu18.04" rfl rfl rfl (by decide)).1
     (.vstr "10.0") (.vstr "devel") rfl rfl⟩

/-! ### Substring containment -/

/-- `needle` occurs as a contiguous substring of `hay`. -/
def strContains (hay needle : String) : Prop := needle.data <:+: hay.data

instance (hay needle : String) : Decidable (strContains hay needle) :=
  inferInstanceAs (Decidable (needle.data <:+: hay.data))

theorem strContains_append_of_left {a : String} (b : String) {n : String}
    (h : strContains a n) : strContains (a ++ b) n := by
  rw [strContains, String.data_append]
  exact h.trans (List.prefix_append a.data b.data).isInfix

theorem strContains_append_of_right (a : String) {b n : String}
    (h : strContains b n) : strContains (a ++ b) n := by
  rw [strContains, String.data_append]
  exact h.trans (List.suffix_append a.data b.data).isInfix

theorem strContains_join_of_mem (f : α → String) (l : List α) (a : α)
    (ha : a ∈ l) : strContains (String.join (l.map f)) (f a) := by
  induction l with
  | nil => cases ha
  | cons x l ih =>
    rw [List.map_cons, join_cons]
    rcases List.mem_cons.mp ha with rfl | h
    · exact strContains_append_of_left _
        ⟨[], [], by simp [strContains]⟩
    · exact strContains_append_of_right _ (ih h)

/-! ### C2: what is written before each kind of failure -/

/-- C2 (amended): every failure of base-section resolution (missing `base`,
`system` or `version` key, or a whitelist violation) terminates the program
before any output file is written; but when resolution succeeds and the
required key `name` is absent, the program terminates only after the
build-specification file has already been written. -/
theorem validation_failures_before_writes (cfg : Config) :
    (∀ e, get_base_image cfg = .error e → main cfg = .failure 1 e []) ∧
    (∀ img, get_base_image cfg = .ok img → cfg.name = none →
      main cfg = .failure 1 (.uncaughtKeyError "name")
        [(DOCKER_FILE, dockerfile_text cfg img)]) := by
  constructor
  · intro e he
    simp [main, he]
  · intro img hok hname
    simp [main, hok, hname]

/-- A configuration with a valid `base` section but no `name` key. -/
def cfgNoName : Config :=
  { base := some { system := some "ubuntu", version := some (.vstr "18.04") } }

/-- A configuration whose only key is a valid `name` (the `base` key is
missing). -/
def cfgNoBase : Config := { name := some "demo2" }

/-- C2 (counterexample): on `cfgNoName` the program terminates with a
missing-key failure (exit status 1), yet the Dockerfile has already been
written — the write list at termination is not empty. -/
theorem missing_name_fails_after_dockerfile_write :
    main cfgNoName = .failure 1 (.uncaughtKeyError "name")
      [(DOCKER_FILE, dockerfile_text cfgNoName "ubuntu:18.04")] ∧
    (main cfgNoName).writes ≠ [] := by
  have h : main cfgNoName = .failure 1 (.uncaughtKeyError "name")
      [(DOCKER_FILE, dockerfile_text cfgNoName "ubuntu:18.04")] := by
    decide
  refine ⟨h, ?_⟩
  rw [h]
  simp [ProgResult.writes]

theorem validation_failures_before_writes_witness :
    main cfgNoBase = .failure 1 (.missingFileKey "base") [] :=
  (validation_failures_before_writes cfgNoBase).1 (.missingFileKey "base")
    (by decide)

/-! ### C3 and C9: custom commands versus the default build fragment -/

/-- C3: when `custom` is present the Dockerfile's final fragment is exactly
one `RUN `-prefixed line per entry of `custom`, in declared order, and the
default build fragment `DOCKER_BUILD_REPO` is not among the written
fragments; when `custom` is absent the default build fragment is written
(as the last fragment). -/
theorem custom_suppresses_default_build (cfg : Config) (img : String) :
    (∀ cs, cfg.custom = some cs →
      docker_fragments cfg img =
        [ "FROM " ++ img ++ "\n", DOCKER_JUPYTERLAB, apt_packages cfg,
          source_packages cfg, DOCKER_COPY_REPO,
          String.join (cs.map fun c => "RUN " ++ c ++ "\n") ] ∧
      DOCKER_BUILD_REPO ∉ docker_fragments cfg img) ∧
    (cfg.custom = none →
      docker_fragments cfg img =
        [ "FROM " ++ img ++ "\n", DOCKER_JUPYTERLAB, apt_packages cfg,
          source_packages cfg, DOCKER_COPY_REPO, DOCKER_BUILD_REPO ]) := by
  constructor
  · intro cs hcs
    refine ⟨?_, build_repo_not_emitted cfg img cs hcs⟩
    simp [docker_fragments, hcs, custom_commands_eq cfg cs hcs]
  · intro h
    simp [docker_fragments, h]

/-- A configuration with two custom commands. -/
def cfgCustom : Config :=
  { name := some "demo3",
    base := some { system := some "ubuntu", version := some (.vstr "16.04") },
    custom := some ["echo hello", "make test"] }

theorem custom_suppresses_default_build_witness :
    docker_fragments cfgCustom "ubuntu:16.04" =
      [ "FROM " ++ "ubuntu:16.04" ++ "\n", DOCKER_JUPYTERLAB,
        apt_packages cfgCustom, source_packages cfgCustom, DOCKER_COPY_REPO,
        String.join (["echo hello", "make test"].map fun c => "RUN " ++ c ++ "\n") ] ∧
    DOCKER_BUILD_REPO ∉ docker_fragments cfgCustom "ubuntu:16.04" :=
  (custom_suppresses_default_build cfgCustom "ubuntu:16.04").1
    ["echo hello", "make test"] rfl

/-- C9: when `custom` is present but empty, the generated Dockerfile text
ends immediately after the copy-repo fragment — the custom fragment is the
empty string and the default build fragment is not among the written
fragments. -/
theorem empty_custom_ends_after_copy_repo (cfg : Config) (img : String)
    (h : cfg.custom = some []) :
    dockerfile_text cfg img =
      "FROM " ++ img ++ "\n" ++ DOCKER_JUPYTERLAB ++ apt_packages cfg ++
        source_packages cfg ++ DOCKER_COPY_REPO ∧
    custom_commands cfg = "" ∧
    DOCKER_BUILD_REPO ∉ docker_fragments cfg img := by
  have hcc : custom_commands cfg = "" := by
    rw [custom_commands_eq cfg [] h]
    rfl
  refine ⟨?_, hcc, build_repo_not_emitted cfg img [] h⟩
  rw [dockerfile_text_eq]
  simp [h, hcc]

/-- A configuration whose `custom` key is present but maps to an empty
sequence. -/
def cfgCustomEmpty : Config :=
  { name := some "demo4",
    base := some { system := some "centos", version := some (.vstr "7") },
    custom := some [] }

theorem empty_custom_ends_after_copy_repo_witness :
    dockerfile_text cfgCustomEmpty "centos:7" =
      "FROM " ++ "centos:7" ++ "\n" ++ DOCKER_JUPYTERLAB ++
        apt_packages cfgCustomEmpty ++ source_packages cfgCustomEmpty ++
        DOCKER_COPY_REPO ∧
    custom_commands cfgCustomEmpty = "" ∧
    DOCKER_BUILD_REPO ∉ docker_fragments cfgCustomEmpty "centos:7" :=
  empty_custom_ends_after_copy_repo cfgCustomEmpty "centos:7" rfl

/-! ### C4: GPU-aware run-script selection -/

theorem is_nvidia_iff (s : String) :
    is_nvidia s = true ↔ ∃ t, s = "nvidia" ++ t := by
  rw [is_nvidia, String.take_eq]
  constructor
  · intro h
    have h6 : s.data.take 6 = "nvidia".data :=
      congrArg String.data (eq_of_beq h)
    refine ⟨⟨s.data.drop 6⟩, ?_⟩
    apply String.ext
    rw [String.data_append, ← h6]
    exact (List.take_append_drop 6 s.data).symm
  · rintro ⟨t, rfl⟩
    have h6 : ("nvidia" ++ t).data.take 6 = "nvidia".data := by
      rw [String.data_append]
      exact List.take_left' (by decide)
    rw [h6]
    decide

theorem nvidia_ne_plain_run_script (name : String) :
    NVIDIA_RUN_SCRIPT name ≠ RUN_SCRIPT name := by
  refine ne_of_charAt_ne 10 ?_
  rw [NVIDIA_RUN_SCRIPT, RUN_SCRIPT,
    charAt_append_left _ (by decide : 10 < NVIDIA_RUN_SCRIPT_PRE.data.length),
    charAt_append_left _ (by decide : 10 < RUN_SCRIPT_PRE.data.length)]
  decide

theorem run_script_publishes_port (name : String) :
    strContains (RUN_SCRIPT name) "-p 8888:8888" := by
  rw [RUN_SCRIPT]
  exact strContains_append_of_left _ (by decide)

theorem nvidia_run_script_publishes_port (name : String) :
    strContains (NVIDIA_RUN_SCRIPT name) "-p 8888:8888" := by
  rw [NVIDIA_RUN_SCRIPT]
  exact strContains_append_of_left _ (by decide)

/-- C4: on every successful run the run script written is
`NVIDIA_RUN_SCRIPT` exactly when the resolved base-image reference starts
with `nvidia` and the short `RUN_SCRIPT` otherwise (the two variants are
distinct strings), and both variants publish port 8888. -/
theorem run_script_gpu_variant_selection (cfg : Config) (name img : String)
    (hname : cfg.name = some name) (hok : get_base_image cfg = .ok img) :
    main cfg = .success
      [ (DOCKER_FILE, dockerfile_text cfg img),
        (BUILD_FILE, BUILD_SCRIPT DOCKER_FILE name),
        (RUN_FILE, if is_nvidia img then NVIDIA_RUN_SCRIPT name
                   else RUN_SCRIPT name),
        (DOCKER_IGNORE_FILE, DOCKER_IGNORE_CONTENTS) ] ∧
    (is_nvidia img = true ↔ ∃ t, img = "nvidia" ++ t) ∧
    NVIDIA_RUN_SCRIPT name ≠ RUN_SCRIPT name ∧
    strContains (NVIDIA_RUN_SCRIPT name) "-p 8888:8888" ∧
    strContains (RUN_SCRIPT name) "-p 8888:8888" := by
  refine ⟨?_, is_nvidia_iff img, nvidia_ne_plain_run_script name,
    nvidia_run_script_publishes_port name, run_script_publishes_port name⟩
  simp [main, hok, hname]

/-- The minimal end-to-end demo configuration
`{name: demo, base: {system: ubuntu, version: "18.04"}}`. -/
def cfgDemo : Config :=
  { name := some "demo",
    base := some { system := some "ubuntu", version := some (.vstr "18.04") } }

theorem run_script_gpu_variant_selection_witness :
    main cfgDemo = .success
      [ (DOCKER_FILE, dockerfile_text cfgDemo "ubuntu:18.04"),
        (BUILD_FILE, BUILD_SCRIPT DOCKER_FILE "demo"),
        (RUN_FILE, if is_nvidia "ubuntu:18.04" then NVIDIA_RUN_SCRIPT "demo"
                   else RUN_SCRIPT "demo"),
        (DOCKER_IGNORE_FILE, DOCKER_IGNORE_CONTENTS) ] ∧
    (is_nvidia "ubuntu:18.04" = true ↔ ∃ t, "ubuntu:18.04" = "nvidia" ++ t) ∧
    NVIDIA_RUN_SCRIPT "demo" ≠ RUN_SCRIPT "demo" ∧
    strContains (NVIDIA_RUN_SCRIPT "demo") "-p 8888:8888" ∧
    strContains (RUN_SCRIPT "demo") "-p 8888:8888" :=
  run_script_gpu_variant_selection cfgDemo "demo" "ubuntu:18.04" rfl (by decide)

/-! ### C5 and C10: whitelist-violation diagnostics -/

theorem get_base_image_err_system (cfg : Config) (b : BaseSpec) (sys : String)
    (ver : YVal) (hb : cfg.base = some b) (hs : b.system = some sys)
    (hv : b.version = some ver) (h1 : pyLower sys ∉ SUPPORTED_SYSTEMS) :
    get_base_image cfg = .error (.unsupported ("System " ++ pyLower sys ++
      " is not supported. Valid options are: " ++
      pyListRepr SUPPORTED_SYSTEMS)) := by
  simp [get_base_image, hb, hs, hv, h1]

theorem get_base_image_err_version (cfg : Config) (b : BaseSpec) (sys : String)
    (ver : YVal) (hb : cfg.base = some b) (hs : b.system = some sys)
    (hv : b.version = some ver) (h1 : pyLower sys ∈ SUPPORTED_SYSTEMS)
    (h2 : pyStr ver ∉ SUPPORTED_VERSIONS (pyLower sys)) :
    get_base_image cfg = .error (.unsupported ("Version " ++ pyStr ver ++
      " not supported in " ++ pyLower sys ++
      " system. Valid options are: " ++
      pyListRepr (SUPPORTED_VERSIONS (pyLower sys)))) := by
  simp [get_base_image, hb, hs, hv, h1, h2]

theorem get_base_image_err_cuda (cfg : Config) (b : BaseSpec) (sys : String)
    (ver c : YVal) (hb : cfg.base = some b) (hs : b.system = some sys)
    (hv : b.version = some ver) (h1 : pyLower sys ∈ SUPPORTED_SYSTEMS)
    (h2 : pyStr ver ∈ SUPPORTED_VERSIONS (pyLower sys))
    (hc : b.cuda = some c) (h3 : pyStr c ∉ SUPPORTED_VERSIONS "cuda") :
    get_base_image cfg = .error (.unsupported ("CUDA version " ++ pyStr c ++
      " not supported. Valid options are: " ++
      pyListRepr (SUPPORTED_VERSIONS "cuda"))) := by
  simp [get_base_image, hb, hs, hv, h1, h2, hc, h3]

theorem get_base_image_err_opengl (cfg : Config) (b : BaseSpec) (sys : String)
    (ver o : YVal) (hb : cfg.base = some b) (hs : b.system = some sys)
    (hv : b.version = some ver) (h1 : pyLower sys ∈ SUPPORTED_SYSTEMS)
    (h2 : pyStr ver ∈ SUPPORTED_VERSIONS (pyLower sys))
    (hcuda : b.cuda = none ∨
      ∃ c, b.cuda = some c ∧ pyStr c ∈ SUPPORTED_VERSIONS "cuda")
    (ho : b.opengl = some o) (h4 : pyStr o ∉ SUPPORTED_VERSIONS "opengl") :
    get_base_image cfg = .error (.unsupported ("OpenGL option " ++ pyStr o ++
      " not supported. Valid options are: " ++
      pyListRepr (SUPPORTED_VERSIONS "opengl"))) := by
  rcases hcuda with hc | ⟨c, hc, h3⟩
  · simp [get_base_image, hb, hs, hv, h1, h2, hc, ho, h4]
  · simp [get_base_image, hb, hs, hv, h1, h2, hc, h3, ho, h4]

/-- C5: whenever the lower-cased system, the version, a present CUDA value
or a present OpenGL value falls outside its whitelist, the program
terminates with exit status 1 and a diagnostic that names the rejected
value and lists the valid options for that field, and with no file
written. -/
theorem unsupported_value_diagnostics (cfg : Config) (b : BaseSpec)
    (sys : String) (ver : YVal) (hb : cfg.base = some b)
    (hs : b.system = some sys) (hv : b.version = some ver) :
    (pyLower sys ∉ SUPPORTED_SYSTEMS →
      main cfg = .failure 1 (.unsupported ("System " ++ pyLower sys ++
        " is not supported. Valid options are: " ++
        pyListRepr SUPPORTED_SYSTEMS)) []) ∧
    (pyLower sys ∈ SUPPORTED_SYSTEMS →
      pyStr ver ∉ SUPPORTED_VERSIONS (pyLower sys) →
      main cfg = .failure 1 (.unsupported ("Version " ++ pyStr ver ++
        " not supported in " ++ pyLower sys ++
        " system. Valid options are: " ++
        pyListRepr (SUPPORTED_VERSIONS (pyLower sys)))) []) ∧
    (∀ c, pyLower sys ∈ SUPPORTED_SYSTEMS →
      pyStr ver ∈ SUPPORTED_VERSIONS (pyLower sys) → b.cuda = some c →
      pyStr c ∉ SUPPORTED_VERSIONS "cuda" →
      main cfg = .failure 1 (.unsupported ("CUDA version " ++ pyStr c ++
        " not supported. Valid options are: " ++
        pyListRepr (SUPPORTED_VERSIONS "cuda"))) []) ∧
    (∀ o, pyLower sys ∈ SUPPORTED_SYSTEMS →
      pyStr ver ∈ SUPPORTED_VERSIONS (pyLower sys) →
      (b.cuda = none ∨
        ∃ c, b.cuda = some c ∧ pyStr c ∈ SUPPORTED_VERSIONS "cuda") →
      b.opengl = some o → pyStr o ∉ SUPPORTED_VERSIONS "opengl" →
      main cfg = .failure 1 (.unsupported ("OpenGL option " ++ pyStr o ++
        " not supported. Valid options are: " ++
        pyListRepr (SUPPORTED_VERSIONS "opengl"))) []) := by
  refine ⟨?_, ?_, ?_, ?_⟩
  · intro h1
    simp [main, get_base_image_err_system cfg b sys ver hb hs hv h1]
  · intro h1 h2
    simp [main, get_base_image_err_version cfg b sys ver hb hs hv h1 h2]
  · intro c h1 h2 hc h3
    simp [main, get_base_image_err_cuda cfg b sys ver c hb hs hv h1 h2 hc h3]
  · intro o h1 h2 hcuda ho h4
    simp [main,
      get_base_image_err_opengl cfg b sys ver o hb hs hv h1 h2 hcuda ho h4]

/-- The `base` section of the C5 witness configuration
(`system: fedora`). -/
def baseFedora : BaseSpec :=
  { system := some "fedora", version := some (.vstr "30") }

/-- A configuration with the unsupported system `fedora`. -/
def cfgFedora : Config := { name := some "demo5", base := some baseFedora }

theorem unsupported_value_diagnostics_witness :
    main cfgFedora = .failure 1 (.unsupported ("System " ++ pyLower "fedora" ++
      " is not supported. Valid options are: " ++
      pyListRepr SUPPORTED_SYSTEMS)) [] ∧
    "System " ++ pyLower "fedora" ++
        " is not supported. Valid options are: " ++
        pyListRepr SUPPORTED_SYSTEMS =
      "System fedora is not supported. Valid options are: [\x27ubuntu\x27, \x27centos\x27]" :=
  ⟨(unsupported_value_diagnostics cfgFedora baseFedora "fedora" (.vstr "30")
      rfl rfl rfl).1 (by decide), by decide⟩

/-- C10: when `base` carries the key `cuda` (resp. `opengl`) with a value
whose `str()` form is outside the whitelist — in particular a null value,
whose string form is `None` and which is in neither whitelist — the program
terminates with exit status 1; only complete absence of both keys resolves
to the plain `<system>:<version>` reference. -/
theorem present_null_scalar_is_rejected (cfg : Config) (b : BaseSpec)
    (sys : String) (ver : YVal) (hb : cfg.base = some b)
    (hs : b.system = some sys) (hv : b.version = some ver)
    (h1 : pyLower sys ∈ SUPPORTED_SYSTEMS)
    (h2 : pyStr ver ∈ SUPPORTED_VERSIONS (pyLower sys)) :
    (∀ c, b.cuda = some c → pyStr c ∉ SUPPORTED_VERSIONS "cuda" →
      main cfg = .failure 1 (.unsupported ("CUDA version " ++ pyStr c ++
        " not supported. Valid options are: " ++
        pyListRepr (SUPPORTED_VERSIONS "cuda"))) []) ∧
    (∀ o, b.opengl = some o → pyStr o ∉ SUPPORTED_VERSIONS "opengl" →
      (b.cuda = none ∨
        ∃ c, b.cuda = some c ∧ pyStr c ∈ SUPPORTED_VERSIONS "cuda") →
      main cfg = .failure 1 (.unsupported ("OpenGL option " ++ pyStr o ++
        " not supported. Valid options are: " ++
        pyListRepr (SUPPORTED_VERSIONS "opengl"))) []) ∧
    (pyStr .vnull = "None" ∧ "None" ∉ SUPPORTED_VERSIONS "cuda" ∧
      "None" ∉ SUPPORTED_VERSIONS "opengl") ∧
    (b.cuda = none → b.opengl = none →
      get_base_image cfg = .ok (pyLower sys ++ ":" ++ pyStr ver)) := by
  refine ⟨?_, ?_, ⟨rfl, by decide, by decide⟩, ?_⟩
  · intro c hc h3
    simp [main, get_base_image_err_cuda cfg b sys ver c hb hs hv h1 h2 hc h3]
  · intro o ho h4 hcuda
    simp [main,
      get_base_image_err_opengl cfg b sys ver o hb hs hv h1 h2 hcuda ho h4]
  · intro hc ho
    exact get_base_image_plain cfg b sys ver hb hs hv hc ho h1 h2

/-- The `base` section of the C10 witness: `cuda:` present with a null
value. -/
def baseNullCuda : BaseSpec :=
  { system := some "ubuntu", version := some (.vstr "18.04"),
    cuda := some .vnull }

/-- A configuration whose `base.cuda` key is present but null. -/
def cfgNullCuda : Config :=
  { name := some "demo10", base := some baseNullCuda }

theorem present_null_scalar_is_rejected_witness :
    main cfgNullCuda = .failure 1 (.unsupported ("CUDA version " ++
      pyStr .vnull ++ " not supported. Valid options are: " ++
      pyListRepr (SUPPORTED_VERSIONS "cuda"))) [] ∧
    "CUDA version " ++ pyStr .vnull ++
        " not supported. Valid options are: " ++
        pyListRepr (SUPPORTED_VERSIONS "cuda") =
      "CUDA version None not supported. Valid options are: [\x278.0\x27, \x279.0\x27, \x279.1\x27, \x279.2\x27, \x2710.0\x27]" :=
  ⟨(present_null_scalar_is_rejected cfgNullCuda baseNullCuda "ubuntu"
      (.vstr "18.04") rfl rfl rfl (by decide) (by decide)).1 .vnull rfl
      (by decide),
   by decide⟩

/-! ### C6: the apt-packages fragment -/

/-- C6: the system-packages fragment is empty when `apt-packages` is
absent; when present it is the install block whose package list is one
backslash-continuation line per package in declared order, and every
package's line occurs in the fragment. -/
theorem apt_packages_fragment (cfg : Config) :
    (cfg.aptPackages = none → apt_packages cfg = "") ∧
    (∀ ps, cfg.aptPackages = some ps →
      apt_packages cfg =
        DOCKER_APT_PRE ++
          String.join (ps.map fun p => "    " ++ p ++ " \\\n") ++
          DOCKER_APT_POST ∧
      ∀ p ∈ ps, strContains (apt_packages cfg) ("    " ++ p ++ " \\\n")) := by
  constructor
  · intro h
    simp [apt_packages, h]
  · intro ps hps
    have he := apt_packages_eq cfg ps hps
    refine ⟨by rw [he, DOCKER_APT], ?_⟩
    intro p hp
    rw [he, DOCKER_APT]
    exact strContains_append_of_left _
      (strContains_append_of_right _ (strContains_join_of_mem _ ps p hp))

/-- A configuration with `apt-packages: [vim, git]`. -/
def cfgApt : Config :=
  { name := some "demo6",
    base := some { system := some "ubuntu", version := some (.vstr "18.04") },
    aptPackages := some ["vim", "git"] }

theorem apt_packages_fragment_witness :
    apt_packages cfgApt =
      DOCKER_APT_PRE ++
        String.join ((["vim", "git"]).map fun p => "    " ++ p ++ " \\\n") ++
        DOCKER_APT_POST ∧
    strContains (apt_packages cfgApt) ("    " ++ "vim" ++ " \\\n") ∧
    strContains (apt_packages cfgApt) ("    " ++ "git" ++ " \\\n") :=
  have h := (apt_packages_fragment cfgApt).2 ["vim", "git"] rfl
  ⟨h.1, h.2 "vim" (by simp), h.2 "git" (by simp)⟩

/-! ### C7: the source-packages fragment -/

/-- C7: the source-packages fragment is empty when `source-packages` is
absent; when present it is the concatenation, in declared order, of one
block per entry consisting of the optional dependency install block
followed by the fetch-build-install block `DOCKER_CMAKE repo name` (clone
into `/name`, build, install, remove `/name`); the dependency install block
is emitted exactly when `depends` is present and non-empty. -/
theorem source_packages_fragment (cfg : Config) :
    (cfg.sourcePackages = none → source_packages cfg = "") ∧
    (∀ ps, cfg.sourcePackages = some ps →
      source_packages cfg =
        String.join
          (ps.map fun p => depends_fragment p ++ DOCKER_CMAKE p.repo p.name)) ∧
    (∀ p : SourcePkg,
      (p.depends = none → depends_fragment p = "") ∧
      (p.depends = some [] → depends_fragment p = "") ∧
      (∀ ds, p.depends = some ds → ds ≠ [] →
        depends_fragment p =
          DOCKER_APT (String.join (ds.map fun d => "    " ++ d ++ " \\\n")))) := by
  refine ⟨?_, ?_, ?_⟩
  · intro h
    simp [source_packages, h]
  · intro ps hps
    rw [source_packages_eq cfg ps hps]
    rfl
  · intro p
    refine ⟨?_, ?_, ?_⟩
    · intro h
      simp [depends_fragment, h]
    · intro h
      simp [depends_fragment, h]
    · intro ds h hne
      rcases ds with _ | ⟨d, ds⟩
      · exact absurd rfl hne
      · simp [depends_fragment, h]

/-- The first source package of the C7 witness (with one dependency). -/
def pkgA : SourcePkg :=
  { repo := "https://github.com/example/liba.git", name := "liba",
    depends := some ["libeigen3-dev"] }

/-- The second source package of the C7 witness (no `depends` key). -/
def pkgB : SourcePkg :=
  { repo := "https://github.com/example/libb.git", name := "libb" }

/-- A configuration with two source packages. -/
def cfgSrc : Config :=
  { name := some "demo7",
    base := some { system := some "ubuntu", version := some (.vstr "16.04") },
    sourcePackages := some [pkgA, pkgB] }

theorem source_packages_fragment_witness :
    source_packages cfgSrc =
      String.join
        ([pkgA, pkgB].map fun p => depends_fragment p ++ DOCKER_CMAKE p.repo p.name) ∧
    depends_fragment pkgA =
      DOCKER_APT
        (String.join (["libeigen3-dev"].map fun d => "    " ++ d ++ " \\\n")) ∧
    depends_fragment pkgB = "" :=
  ⟨(source_packages_fragment cfgSrc).2.1 [pkgA, pkgB] rfl,
   ((source_packages_fragment cfgSrc).2.2 pkgA).2.2 ["libeigen3-dev"] rfl
     (by simp),
   ((source_packages_fragment cfgSrc).2.2 pkgB).1 rfl⟩

/-! ### C8: the ignore file -/

/-- C8 (amended): on every successful run the ignore file is written with
the fixed configuration-independent contents listing, one filename per
line, `README.md`, the ignore file itself, the configuration file, the
build-specification file and the two generated scripts. -/
theorem ignore_file_fixed_contents (cfg : Config) (ws : List (String × String))
    (h : main cfg = .success ws) :
    (DOCKER_IGNORE_FILE, DOCKER_IGNORE_CONTENTS) ∈ ws ∧
    DOCKER_IGNORE_CONTENTS =
      "README.md\n.dockerignore\nrepolab.yaml\nrepolab.dockerfile\nrepolab_build.sh\nrepolab_run.sh\n" := by
  refine ⟨?_, by decide⟩
  cases hg : get_base_image cfg with
  | error e => simp [main, hg] at h
  | ok img =>
    cases hn : cfg.name with
    | none => simp [main, hg, hn] at h
    | some name =>
      simp only [main, hg, hn] at h
      rw [← ProgResult.success.inj h]
      simp

/-- A configuration for the C8 theorems (plain centos). -/
def cfgC8 : Config :=
  { name := some "demo8",
    base := some { system := some "centos", version := some (.vstr "7") } }

/-- The writes of a successful run on `cfgC8`. -/
def wsC8 : List (String × String) :=
  [ (DOCKER_FILE, dockerfile_text cfgC8 "centos:7"),
    (BUILD_FILE, BUILD_SCRIPT DOCKER_FILE "demo8"),
    (RUN_FILE, RUN_SCRIPT "demo8"),
    (DOCKER_IGNORE_FILE, DOCKER_IGNORE_CONTENTS) ]

theorem ignore_file_fixed_contents_witness :
    (DOCKER_IGNORE_FILE, DOCKER_IGNORE_CONTENTS) ∈ wsC8 ∧
    DOCKER_IGNORE_CONTENTS =
      "README.md\n.dockerignore\nrepolab.yaml\nrepolab.dockerfile\nrepolab_build.sh\nrepolab_run.sh\n" :=
  ignore_file_fixed_contents cfgC8 wsC8 (by decide)

/-- C8 (counterexample): the ignore file written by the successful run on
`cfgC8` does not consist exactly of the five filenames (ignore file,
configuration file, build-specification file, two scripts): it carries an
additional first line `README.md`. -/
theorem ignore_file_not_five_lines :
    (DOCKER_IGNORE_FILE, DOCKER_IGNORE_CONTENTS) ∈ (main cfgC8).writes ∧
    DOCKER_IGNORE_CONTENTS ≠
      DOCKER_IGNORE_FILE ++ "\n" ++ PROJECT_FILE ++ "\n" ++ DOCKER_FILE ++
        "\n" ++ BUILD_FILE ++ "\n" ++ RUN_FILE ++ "\n" ∧
    DOCKER_IGNORE_CONTENTS =
      "README.md\n" ++ (DOCKER_IGNORE_FILE ++ "\n" ++ PROJECT_FILE ++ "\n" ++
        DOCKER_FILE ++ "\n" ++ BUILD_FILE ++ "\n" ++ RUN_FILE ++ "\n") := by
  refine ⟨by decide, by decide, by decide⟩

end Repolab
